import Mathlib

/-!
# AfriFlow settlement and escrow core: a shallow embedding

This file embeds the state and the state-changing operations of the
AfriFlow payment/escrow core in Lean 4 and proves properties of them:

* `EscrowVault` embeds `contracts/EscrowVault.sol` (milestone escrow:
  creation, release, dispute, arbitration, cancellation);
* `AfriFlowPayment` embeds `contracts/AfriFlowPayment.sol` (instant and
  batch payments, fee calculation, corridor registry);
* `X402Service` embeds the facilitator/fallback flow of the backend
  `X402Service` (sign, submit to facilitator, direct on-chain fallback).

Modelling conventions:

* Solidity `uint256` arithmetic is embedded as `Nat`. Solidity ^0.8
  arithmetic is checked (it reverts on overflow rather than wrapping),
  so `Nat` values agree with the EVM on every execution that completes;
  the fee bound `feeBps ≤ 100` keeps every expression used here far
  below `2^256` for token amounts below `2^248`.
* Addresses and `bytes32` corridor codes are embedded as `String`;
  `address(0)` is the distinguished value `zeroAddress`.
* A Solidity mapping is a total function returning the zero value of its
  range on unset keys, exactly like EVM storage; mapping writes are
  function updates.
* The ERC-20 token is external to both contracts; it is modelled by the
  standard balance-map semantics: a transfer of `amt` from `src` moves
  `amt` to `dst` and fails (reverts) when `src` holds less than `amt`.
  Allowances are abstracted away (an allowance failure and a balance
  failure are the same revert from the contract's point of view).
* Every external function takes the caller (`msg.sender`) and the block
  timestamp (`now`) as explicit arguments and returns
  `Except <Error> <new state>`. An `.error` result is an EVM revert: the
  whole call is rolled back and the pre-state stays in force, so "no
  funds move / no record is created" is the meaning of `.error` here.
* `keccak256` payment ids are embedded as the injective tuple of the
  hashed fields that distinguish them (`user`, per-user nonce, time);
  `block.prevrandao` adds no further distinction and is dropped.
* The `nonReentrant` modifier has no content in a sequential model.
  `whenNotPaused` is modelled by a `paused` flag checked where the
  modifier appears in the source.
-/

namespace AfriFlow

/-- Account / contract addresses (Solidity `address`). -/
abbrev Address := String

/-- `address(0)`. -/
def zeroAddress : Address := "0x0"

/-- ERC-20 balances, token address → holder → balance. -/
abbrev Ledger := Address → Address → Nat

/-- Write one balance cell. -/
def setBal (bal : Ledger) (token acct : Address) (v : Nat) : Ledger :=
  fun t a => if t = token ∧ a = acct then v else bal t a

/-- Standard ERC-20 transfer semantics (used for both `safeTransfer` and
`safeTransferFrom`): move `amt` of `token` from `src` to `dst`, failing
(`none`, i.e. reverting the enclosing call) when `src`'s balance is
insufficient. -/
def erc20Transfer (bal : Ledger) (token src dst : Address) (amt : Nat) :
    Option Ledger :=
  if bal token src < amt then none
  else
    let b1 := setBal bal token src (bal token src - amt)
    some (setBal b1 token dst (b1 token dst + amt))

/-- AccessControl `_grantRole`: set `roles[role][acct] := true`. -/
def grantRole (roles : String → Address → Bool) (role : String) (acct : Address) :
    String → Address → Bool :=
  fun r a => if r = role ∧ a = acct then true else roles r a

end AfriFlow

namespace EscrowVault

open AfriFlow

/-- Milestone states, in source declaration order (`PENDING` is the
mapping default). -/
inductive MilestoneStatus where
  | PENDING
  | RELEASED
  | DISPUTED
  | REFUNDED
deriving DecidableEq, Repr

/-- Escrow states, in source declaration order (`ACTIVE` is the mapping
default). -/
inductive EscrowStatus where
  | ACTIVE
  | COMPLETED
  | CANCELLED
  | DISPUTED
deriving DecidableEq, Repr

structure Milestone where
  description : String
  amount : Nat
  releaseTime : Nat
  status : MilestoneStatus
  completedAt : Nat
deriving DecidableEq, Repr

structure Escrow where
  escrowId : Nat
  sender : Address
  recipient : Address
  token : Address
  totalAmount : Nat
  releasedAmount : Nat
  fee : Nat
  status : EscrowStatus
  createdAt : Nat
  completedAt : Nat
  milestoneCount : Nat
  metadata : String
deriving DecidableEq, Repr

/-- Zero value of the `milestones` mapping. -/
def defaultMilestone : Milestone :=
  { description := "", amount := 0, releaseTime := 0,
    status := .PENDING, completedAt := 0 }

/-- Zero value of the `escrows` mapping; `escrowId = 0` is how the
source detects a missing escrow. -/
def defaultEscrow : Escrow :=
  { escrowId := 0, sender := zeroAddress, recipient := zeroAddress,
    token := zeroAddress, totalAmount := 0, releasedAmount := 0, fee := 0,
    status := .ACTIVE, createdAt := 0, completedAt := 0,
    milestoneCount := 0, metadata := "" }

/-- Custom errors of `EscrowVault.sol`, plus the reverts raised by the
inherited OpenZeppelin modifiers (`EnforcedPause` from `Pausable`,
`MissingRole` from `AccessControl.onlyRole`) and by the token
(`TransferFailed`). -/
inductive EscrowError where
  | InvalidAmount
  | InvalidRecipient
  | InvalidMilestones
  | EscrowNotFound
  | EscrowNotActive
  | MilestoneNotPending
  | MilestoneNotReleasable
  | NotAuthorized
  | DisputeWindowExpired
  | NoDisputeActive
  | TransferFailed
  | EnforcedPause
  | MissingRole
deriving DecidableEq, Repr

def MAX_MILESTONES : Nat := 10
def MIN_ESCROW_AMOUNT : Nat := 1000000
def DISPUTE_WINDOW : Nat := 7 * 86400

def OPERATOR_ROLE : String := "OPERATOR_ROLE"
def AGENT_ROLE : String := "AGENT_ROLE"
def ARBITER_ROLE : String := "ARBITER_ROLE"
def DEFAULT_ADMIN_ROLE : String := "DEFAULT_ADMIN_ROLE"

/-- The address of the vault contract itself (`address(this)`), the
custodial holder of escrowed funds. -/
def self : Address := "EscrowVault"

/-- Contract storage of `EscrowVault`, together with the external token
ledger it acts on. -/
structure State where
  escrowCounter : Nat
  feeBps : Nat
  treasury : Address
  escrows : Nat → Escrow
  milestones : Nat → Nat → Milestone
  senderEscrows : Address → List Nat
  recipientEscrows : Address → List Nat
  roles : String → Address → Bool
  paused : Bool
  balances : Ledger

/-- Mapping write `escrows[id] := e`. -/
def updEscrow (f : Nat → Escrow) (id : Nat) (e : Escrow) : Nat → Escrow :=
  fun j => if j = id then e else f j

/-- Mapping write `milestones[id][i] := m`. -/
def updMilestone (f : Nat → Nat → Milestone) (id i : Nat) (m : Milestone) :
    Nat → Nat → Milestone :=
  fun j k => if j = id ∧ k = i then m else f j k

/-- List push `xs[key].push v` on an address-indexed array mapping. -/
def pushId (f : Address → List Nat) (key : Address) (v : Nat) :
    Address → List Nat :=
  fun a => if a = key then f a ++ [v] else f a

/-- The constructor: store `treasury` and `feeBps` and grant all four
roles to the deployer. -/
def deploy (deployer treasury : Address) (feeBps : Nat) (bal : Ledger) : State :=
  { escrowCounter := 0
    feeBps := feeBps
    treasury := treasury
    escrows := fun _ => defaultEscrow
    milestones := fun _ _ => defaultMilestone
    senderEscrows := fun _ => []
    recipientEscrows := fun _ => []
    roles :=
      grantRole (grantRole (grantRole (grantRole (fun _ _ => false)
        DEFAULT_ADMIN_ROLE deployer) OPERATOR_ROLE deployer)
        AGENT_ROLE deployer) ARBITER_ROLE deployer
    paused := false
    balances := bal }

/-- `createEscrow`: validations, milestone-sum check, record creation,
then the up-front `safeTransferFrom(msg.sender, address(this),
totalAmount)`.  The source writes the records before the token pull;
since a failing pull reverts the whole call, building the candidate
state first and committing it only when the transfer succeeds is the
same semantics. -/
def createEscrow (st : State) (msgSender recipient token : Address)
    (totalAmount : Nat) (milestoneDescriptions : List String)
    (milestoneAmounts : List Nat) (milestoneReleaseTimes : List Nat)
    (metadata : String) (now : Nat) : Except EscrowError (State × Nat) :=
  if st.paused then .error .EnforcedPause
  else if recipient = zeroAddress then .error .InvalidRecipient
  else if totalAmount < MIN_ESCROW_AMOUNT then .error .InvalidAmount
  else if milestoneDescriptions.length = 0 ∨
      milestoneDescriptions.length > MAX_MILESTONES ∨
      milestoneDescriptions.length ≠ milestoneAmounts.length ∨
      milestoneDescriptions.length ≠ milestoneReleaseTimes.length then
    .error .InvalidMilestones
  else if milestoneAmounts.foldl (· + ·) 0 ≠ totalAmount then
    .error .InvalidAmount
  else
    let fee := totalAmount * st.feeBps / 10000
    let escrowId := st.escrowCounter + 1
    let e : Escrow :=
      { escrowId := escrowId, sender := msgSender, recipient := recipient,
        token := token, totalAmount := totalAmount, releasedAmount := 0,
        fee := fee, status := .ACTIVE, createdAt := now, completedAt := 0,
        milestoneCount := milestoneDescriptions.length, metadata := metadata }
    -- the milestone-creation loop writes milestones[escrowId][i] for
    -- each i below the milestone count
    let ms : Nat → Nat → Milestone := fun j i =>
      if j = escrowId ∧ i < milestoneDescriptions.length then
        { description := milestoneDescriptions.getD i ""
          amount := milestoneAmounts.getD i 0
          releaseTime := milestoneReleaseTimes.getD i 0
          status := .PENDING, completedAt := 0 }
      else st.milestones j i
    match erc20Transfer st.balances token msgSender self totalAmount with
    | none => .error .TransferFailed
    | some bal =>
      .ok ({ st with
              escrowCounter := escrowId
              escrows := updEscrow st.escrows escrowId e
              milestones := ms
              senderEscrows := pushId st.senderEscrows msgSender escrowId
              recipientEscrows := pushId st.recipientEscrows recipient escrowId
              balances := bal }, escrowId)

/-- `releaseMilestone`: pays `amount - fee` to the recipient and the fee
to the treasury, marks the milestone RELEASED, and marks the escrow
COMPLETED when `releasedAmount` reaches `totalAmount`. -/
def releaseMilestone (st : State) (msgSender : Address)
    (escrowId milestoneIndex : Nat) (now : Nat) : Except EscrowError State :=
  if st.paused then .error .EnforcedPause
  else
    let e := st.escrows escrowId
    let m := st.milestones escrowId milestoneIndex
    if e.escrowId = 0 then .error .EscrowNotFound
    else if e.status ≠ .ACTIVE then .error .EscrowNotActive
    else if m.status ≠ .PENDING then .error .MilestoneNotPending
    else if ¬(msgSender = e.sender ∨ st.roles AGENT_ROLE msgSender ∨
        (m.releaseTime > 0 ∧ now ≥ m.releaseTime)) then .error .NotAuthorized
    else
      let milestoneFee := m.amount * st.feeBps / 10000
      let netAmount := m.amount - milestoneFee
      let released := e.releasedAmount + m.amount
      match erc20Transfer st.balances e.token self e.recipient netAmount with
      | none => .error .TransferFailed
      | some bal1 =>
        match (if milestoneFee > 0 then
            erc20Transfer bal1 e.token self st.treasury milestoneFee
          else some bal1) with
        | none => .error .TransferFailed
        | some bal2 =>
          let e2 :=
            if released = e.totalAmount then
              { e with releasedAmount := released, status := .COMPLETED,
                       completedAt := now }
            else { e with releasedAmount := released }
          .ok { st with
                  escrows := updEscrow st.escrows escrowId e2
                  milestones := updMilestone st.milestones escrowId
                    milestoneIndex { m with status := .RELEASED, completedAt := now }
                  balances := bal2 }

/-- `disputeMilestone` (recipient only, milestone PENDING, within the
dispute window of a scheduled auto-release): marks the milestone and the
escrow DISPUTED. -/
def disputeMilestone (st : State) (msgSender : Address)
    (escrowId milestoneIndex : Nat) (now : Nat) : Except EscrowError State :=
  let e := st.escrows escrowId
  let m := st.milestones escrowId milestoneIndex
  if e.escrowId = 0 then .error .EscrowNotFound
  else if e.status ≠ .ACTIVE then .error .EscrowNotActive
  else if msgSender ≠ e.recipient then .error .NotAuthorized
  else if m.status ≠ .PENDING then .error .MilestoneNotPending
  else if m.releaseTime > 0 ∧ now > m.releaseTime + DISPUTE_WINDOW then
    .error .DisputeWindowExpired
  else
    .ok { st with
            escrows := updEscrow st.escrows escrowId { e with status := .DISPUTED }
            milestones := updMilestone st.milestones escrowId milestoneIndex
              { m with status := .DISPUTED } }

/-- The completion re-scan of `resolveDispute`: true when no milestone
of the escrow is still PENDING or DISPUTED (the loop's `allProcessed`;
its `processedAmount` accumulator is never read and is dropped). -/
def allMilestonesProcessed (ms : Nat → Nat → Milestone) (escrowId count : Nat) :
    Bool :=
  (List.range count).all fun i =>
    decide ((ms escrowId i).status ≠ .PENDING ∧ (ms escrowId i).status ≠ .DISPUTED)

/-- `resolveDispute` (arbiter only, milestone DISPUTED): in the
recipient's favor it behaves like a release (fee applies), in the
sender's favor the full milestone amount is refunded with no fee; then
the escrow becomes COMPLETED when every milestone is processed,
otherwise it reverts to ACTIVE. -/
def resolveDispute (st : State) (msgSender : Address)
    (escrowId milestoneIndex : Nat) (releaseToRecipient : Bool) (now : Nat) :
    Except EscrowError State :=
  if ¬ st.roles ARBITER_ROLE msgSender then .error .MissingRole
  else
    let e := st.escrows escrowId
    let m := st.milestones escrowId milestoneIndex
    if e.escrowId = 0 then .error .EscrowNotFound
    else if m.status ≠ .DISPUTED then .error .NoDisputeActive
    else if releaseToRecipient then
      let milestoneFee := m.amount * st.feeBps / 10000
      let netAmount := m.amount - milestoneFee
      match erc20Transfer st.balances e.token self e.recipient netAmount with
      | none => .error .TransferFailed
      | some bal1 =>
        match (if milestoneFee > 0 then
            erc20Transfer bal1 e.token self st.treasury milestoneFee
          else some bal1) with
        | none => .error .TransferFailed
        | some bal2 =>
          let ms2 := updMilestone st.milestones escrowId milestoneIndex
            { m with status := .RELEASED, completedAt := now }
          let e1 := { e with releasedAmount := e.releasedAmount + m.amount }
          let e2 :=
            if allMilestonesProcessed ms2 escrowId e.milestoneCount then
              { e1 with status := .COMPLETED, completedAt := now }
            else { e1 with status := .ACTIVE }
          .ok { st with
                  escrows := updEscrow st.escrows escrowId e2
                  milestones := ms2
                  balances := bal2 }
    else
      match erc20Transfer st.balances e.token self e.sender m.amount with
      | none => .error .TransferFailed
      | some bal =>
        let ms2 := updMilestone st.milestones escrowId milestoneIndex
          { m with status := .REFUNDED, completedAt := now }
        let e2 :=
          if allMilestonesProcessed ms2 escrowId e.milestoneCount then
            { e with status := .COMPLETED, completedAt := now }
          else { e with status := .ACTIVE }
        .ok { st with
                escrows := updEscrow st.escrows escrowId e2
                milestones := ms2
                balances := bal }

/-- `cancelEscrow` (sender only, escrow ACTIVE, nothing released):
refunds the full `totalAmount` to the sender with no fee and marks the
escrow CANCELLED. -/
def cancelEscrow (st : State) (msgSender : Address) (escrowId : Nat)
    (now : Nat) : Except EscrowError State :=
  let e := st.escrows escrowId
  if e.escrowId = 0 then .error .EscrowNotFound
  else if msgSender ≠ e.sender then .error .NotAuthorized
  else if e.status ≠ .ACTIVE then .error .EscrowNotActive
  else if e.releasedAmount > 0 then .error .NotAuthorized
  else
    match erc20Transfer st.balances e.token self e.sender e.totalAmount with
    | none => .error .TransferFailed
    | some bal =>
      .ok { st with
              escrows := updEscrow st.escrows escrowId
                { e with status := .CANCELLED, completedAt := now }
              balances := bal }

end EscrowVault

namespace AfriFlowPayment

open AfriFlow

/-- Payment states, in interface declaration order (`PENDING` is the
mapping default). -/
inductive PaymentStatus where
  | PENDING
  | COMPLETED
  | FAILED
  | REFUNDED
  | CANCELLED
deriving DecidableEq, Repr

/-- Payment kinds, in interface declaration order. -/
inductive PaymentType where
  | INSTANT
  | ESCROW
  | BATCH
  | RECURRING
  | X402_TRIGGERED
deriving DecidableEq, Repr

/-- `keccak256(abi.encodePacked(user, userNonce[user]++, block.timestamp,
block.prevrandao))`, embedded as the injective tuple of the fields that
distinguish ids (`prevrandao` adds no distinction on top of the
per-user nonce and is dropped). -/
structure PaymentId where
  user : Address
  nonce : Nat
  time : Nat
deriving DecidableEq, Repr

structure Payment where
  paymentId : PaymentId
  sender : Address
  recipient : Address
  token : Address
  amount : Nat
  fee : Nat
  fromCorridor : String
  toCorridor : String
  status : PaymentStatus
  paymentType : PaymentType
  createdAt : Nat
  completedAt : Nat
  metadata : String
deriving DecidableEq, Repr

/-- Zero value of the `payments` mapping. -/
def defaultPayment : Payment :=
  { paymentId := ⟨zeroAddress, 0, 0⟩, sender := zeroAddress,
    recipient := zeroAddress, token := zeroAddress, amount := 0, fee := 0,
    fromCorridor := "", toCorridor := "", status := .PENDING,
    paymentType := .INSTANT, createdAt := 0, completedAt := 0, metadata := "" }

/-- Custom errors of `AfriFlowPayment.sol`; `ArrayLengthMismatch` and
`BatchTooLarge` stand for the two `require` strings of
`executeBatchPayment`, `EnforcedPause` for the `Pausable` revert,
`MissingRole` for `AccessControl.onlyRole`. -/
inductive PayError where
  | InvalidAmount
  | InvalidRecipient
  | UnsupportedToken
  | UnsupportedCorridor
  | PaymentNotFound
  | PaymentAlreadyProcessed
  | InsufficientBalance
  | TransferFailed
  | InvalidFee
  | InvalidAddress
  | ArrayLengthMismatch
  | BatchTooLarge
  | EnforcedPause
  | MissingRole
deriving DecidableEq, Repr

def MAX_FEE_BPS : Nat := 100
def BPS_DENOMINATOR : Nat := 10000
def MIN_PAYMENT_AMOUNT : Nat := 1000000

def OPERATOR_ROLE : String := "OPERATOR_ROLE"
def AGENT_ROLE : String := "AGENT_ROLE"
def DEFAULT_ADMIN_ROLE : String := "DEFAULT_ADMIN_ROLE"

/-- `address(this)` of the payment contract. -/
def self : Address := "AfriFlowPayment"

/-- Contract storage of `AfriFlowPayment`, together with the external
token ledger it acts on. -/
structure State where
  x402Facilitator : Address
  feeBps : Nat
  treasury : Address
  supportedTokens : Address → Bool
  userNonce : Address → Nat
  payments : PaymentId → Payment
  userPayments : Address → List PaymentId
  corridors : String → String → Bool
  corridorVolume : String × String → Nat
  roles : String → Address → Bool
  paused : Bool
  balances : Ledger

/-- Mapping write `corridors[p.1][p.2] := true` (one iteration of the
initialization loops). -/
def setPair (m : String → String → Bool) (p : String × String) :
    String → String → Bool :=
  fun a b => if a = p.1 ∧ b = p.2 then true else m a b

def africanCountries : List String :=
  ["NG", "KE", "ZA", "GH", "TZ", "UG", "ZW", "EG", "MA", "SN"]

def internationalCountries : List String :=
  ["US", "GB", "EU", "AE", "CN"]

/-- The pairs written by the first loop nest of `_initializeCorridors`:
`corridors[african[i]][african[j]] = true` for all `i ≠ j`.  The loop
guard compares indices; since `africanCountries` has no duplicate
(`africanCountries_nodup` below), index inequality and code inequality
agree, so the loop writes exactly the off-diagonal code pairs. -/
def offDiagPairs (l : List String) : List (String × String) :=
  l.flatMap fun x => l.filterMap fun y => if x ≠ y then some (x, y) else none

/-- The pairs written by the second loop nest of `_initializeCorridors`:
for each international `x` and african `y`, both `(x, y)` and
`(y, x)`. -/
def crossPairs (ext reg : List String) : List (String × String) :=
  ext.flatMap fun x => reg.flatMap fun y => [(x, y), (y, x)]

/-- `_initializeCorridors`: run the african off-diagonal loop, then the
international↔african loop, over the corridor mapping `m`. -/
def initializeCorridors (m : String → String → Bool) :
    String → String → Bool :=
  (crossPairs internationalCountries africanCountries).foldl setPair
    ((offDiagPairs africanCountries).foldl setPair m)

/-- The constructor: validate treasury and fee, store config, grant
roles to the deployer, mark the listed tokens supported, and run
`_initializeCorridors` on the all-false corridor mapping. -/
def deploy (deployer x402Facilitator treasury : Address) (feeBps : Nat)
    (supportedTokenList : List Address) (bal : Ledger) :
    Except PayError State :=
  if treasury = zeroAddress then .error .InvalidAddress
  else if feeBps > MAX_FEE_BPS then .error .InvalidFee
  else
    .ok { x402Facilitator := x402Facilitator
          feeBps := feeBps
          treasury := treasury
          supportedTokens := fun t => decide (t ∈ supportedTokenList)
          userNonce := fun _ => 0
          payments := fun _ => defaultPayment
          userPayments := fun _ => []
          corridors := initializeCorridors (fun _ _ => false)
          corridorVolume := fun _ => 0
          roles :=
            grantRole (grantRole (grantRole (fun _ _ => false)
              DEFAULT_ADMIN_ROLE deployer) OPERATOR_ROLE deployer)
              AGENT_ROLE deployer
          paused := false
          balances := bal }

/-- `calculateFee`: `amount * feeBps / BPS_DENOMINATOR` in `uint256`
arithmetic, i.e. the integer floor. -/
def calculateFee (st : State) (amount : Nat) : Nat :=
  amount * st.feeBps / BPS_DENOMINATOR

/-- `_generatePaymentId`: derive the id and post-increment the user's
nonce. -/
def generatePaymentId (st : State) (user : Address) (now : Nat) :
    PaymentId × State :=
  (⟨user, st.userNonce user, now⟩,
   { st with userNonce := fun a => if a = user then st.userNonce a + 1 else st.userNonce a })

/-- List push `userPayments[key].push v`. -/
def pushPaymentId (f : Address → List PaymentId) (key : Address)
    (v : PaymentId) : Address → List PaymentId :=
  fun a => if a = key then f a ++ [v] else f a

/-- `executeInstantPayment`: validations, fee split, PENDING record,
pull `amount` from the sender, pay `amount - fee` to the recipient and
the fee to the treasury, then mark the record COMPLETED and bump the
corridor volume.  The transfers happen inside one transaction, so a
failing leg reverts the whole call. -/
def executeInstantPayment (st : State) (msgSender recipient token : Address)
    (amount : Nat) (fromCorridor toCorridor : String) (metadata : String)
    (now : Nat) : Except PayError (State × PaymentId) :=
  if st.paused then .error .EnforcedPause
  else if recipient = zeroAddress then .error .InvalidRecipient
  else if amount < MIN_PAYMENT_AMOUNT then .error .InvalidAmount
  else if ¬ st.supportedTokens token then .error .UnsupportedToken
  else if ¬ st.corridors fromCorridor toCorridor then .error .UnsupportedCorridor
  else
    let fee := amount * st.feeBps / BPS_DENOMINATOR
    let netAmount := amount - fee
    let (paymentId, st1) := generatePaymentId st msgSender now
    let p : Payment :=
      { paymentId := paymentId, sender := msgSender, recipient := recipient,
        token := token, amount := amount, fee := fee,
        fromCorridor := fromCorridor, toCorridor := toCorridor,
        status := .PENDING, paymentType := .INSTANT, createdAt := now,
        completedAt := 0, metadata := metadata }
    match erc20Transfer st.balances token msgSender self amount with
    | none => .error .TransferFailed
    | some bal1 =>
      match erc20Transfer bal1 token self recipient netAmount with
      | none => .error .TransferFailed
      | some bal2 =>
        match (if fee > 0 then erc20Transfer bal2 token self st.treasury fee
               else some bal2) with
        | none => .error .TransferFailed
        | some bal3 =>
          .ok ({ st1 with
                  payments := fun pid =>
                    if pid = paymentId then
                      { p with status := .COMPLETED, completedAt := now }
                    else st1.payments pid
                  userPayments := pushPaymentId st1.userPayments msgSender paymentId
                  corridorVolume := fun key =>
                    if key = (fromCorridor, toCorridor) then
                      st1.corridorVolume key + amount
                    else st1.corridorVolume key
                  balances := bal3 }, paymentId)

/-- The validate-and-total loop of `executeBatchPayment` over the
entries `(recipient, amount, toCorridor)`: rejects the first invalid
entry, otherwise returns `(totalAmount, totalFee)`. -/
def validateEntries (feeBps : Nat) (corridors : String → String → Bool)
    (fromCorridor : String) :
    List (Address × Nat × String) → Except PayError (Nat × Nat)
  | [] => .ok (0, 0)
  | (r, amt, toC) :: rest =>
    if r = zeroAddress then .error .InvalidRecipient
    else if amt < MIN_PAYMENT_AMOUNT then .error .InvalidAmount
    else if ¬ corridors fromCorridor toC then .error .UnsupportedCorridor
    else
      match validateEntries feeBps corridors fromCorridor rest with
      | .error e => .error e
      | .ok (ta, tf) => .ok (amt + ta, amt * feeBps / BPS_DENOMINATOR + tf)

/-- The fan-out loop of `executeBatchPayment`: per entry, record a
COMPLETED BATCH payment and pay the net amount out of the contract. -/
def payoutEntries (st : State) (msgSender token : Address)
    (fromCorridor : String) (now : Nat) :
    List (Address × Nat × String) → Except PayError (State × List PaymentId)
  | [] => .ok (st, [])
  | (r, amt, toC) :: rest =>
    let fee := amt * st.feeBps / BPS_DENOMINATOR
    let netAmount := amt - fee
    let (paymentId, st1) := generatePaymentId st msgSender now
    let p : Payment :=
      { paymentId := paymentId, sender := msgSender, recipient := r,
        token := token, amount := amt, fee := fee,
        fromCorridor := fromCorridor, toCorridor := toC,
        status := .COMPLETED, paymentType := .BATCH, createdAt := now,
        completedAt := now, metadata := "" }
    let st2 := { st1 with
                  payments := fun pid =>
                    if pid = paymentId then p else st1.payments pid
                  userPayments := pushPaymentId st1.userPayments msgSender paymentId }
    match erc20Transfer st2.balances token self r netAmount with
    | none => .error .TransferFailed
    | some bal =>
      match payoutEntries { st2 with balances := bal } msgSender token
          fromCorridor now rest with
      | .error e => .error e
      | .ok (st3, ids) => .ok (st3, paymentId :: ids)

/-- `executeBatchPayment`: length and size checks, the validate-and-total
pass over all entries, the token-support check, one pull of the total
from the sender, then the fan-out and one aggregated fee transfer.  Any
error is an EVM revert of the whole batch. -/
def executeBatchPayment (st : State) (msgSender : Address)
    (recipients : List Address) (token : Address) (amounts : List Nat)
    (fromCorridor : String) (toCorridors : List String) (now : Nat) :
    Except PayError (State × List PaymentId) :=
  if st.paused then .error .EnforcedPause
  else if ¬(recipients.length = amounts.length ∧
      recipients.length = toCorridors.length) then .error .ArrayLengthMismatch
  else if recipients.length > 50 then .error .BatchTooLarge
  else
    let entries := recipients.zip (amounts.zip toCorridors)
    match validateEntries st.feeBps st.corridors fromCorridor entries with
    | .error e => .error e
    | .ok (totalAmount, totalFee) =>
      if ¬ st.supportedTokens token then .error .UnsupportedToken
      else
        match erc20Transfer st.balances token msgSender self totalAmount with
        | none => .error .TransferFailed
        | some bal =>
          match payoutEntries { st with balances := bal } msgSender token
              fromCorridor now entries with
          | .error e => .error e
          | .ok (st2, ids) =>
            match (if totalFee > 0 then
                erc20Transfer st2.balances token self st2.treasury totalFee
              else some st2.balances) with
            | none => .error .TransferFailed
            | some bal2 => .ok ({ st2 with balances := bal2 }, ids)

/-- `isCorridorSupported` view. -/
def isCorridorSupported (st : State) (fromCorridor toCorridor : String) :
    Bool :=
  st.corridors fromCorridor toCorridor

/-- `setCorridor` (operator only): write exactly the one ordered pair. -/
def setCorridor (st : State) (msgSender : Address)
    (fromCorridor toCorridor : String) (enabled : Bool) :
    Except PayError State :=
  if ¬ st.roles OPERATOR_ROLE msgSender then .error .MissingRole
  else
    .ok { st with
            corridors := fun a b =>
              if a = fromCorridor ∧ b = toCorridor then enabled
              else st.corridors a b }

end AfriFlowPayment

namespace X402Service

open AfriFlow

/-- The inbound request shape of `X402Service.executePayment`. -/
structure PaymentParams where
  sender : Address
  recipient : Address
  amount : Nat
  fromCorridor : String
  toCorridor : String
  metadata : String
deriving DecidableEq, Repr

/-- The EIP-3009 `transferWithAuthorization` payload built by
`signTransferAuthorization` (`{from, to, value, validAfter, validBefore,
nonce, v, r, s}`). -/
structure AuthorizationPayload where
  fromAddr : Address
  toAddr : Address
  value : Nat
  validAfter : Nat
  validBefore : Nat
  nonce : Nat
  v : Nat
  r : Nat
  s : Nat
deriving DecidableEq, Repr

/-- The errors `executePayment` can throw: the balance fast-fail, the
"Signer not configured" error of signing (and of the direct path), and a
direct-path transaction failure (which, unlike a facilitator failure, is
rethrown to the caller). -/
inductive X402Error where
  | InsufficientBalance
  | SignerNotConfigured
  | DirectExecutionFailed
deriving DecidableEq, Repr

/-- The externally observable steps of one `executePayment` run, in
order: the HTTP POST to the facilitator, and the direct
`executeInstantPayment` transaction of the fallback. -/
inductive X402Event where
  | facilitatorRequestSent
  | directExecutionAttempted
deriving DecidableEq, Repr

/-- The environment a run executes against: whether a signing key was
configured at construction, the sender's token balance (the
`getTokenBalance` view, in whole-token units as compared by the source),
the facilitator's answer (`some txHash` for a 2xx response carrying a
transaction reference, `none` for a non-2xx response, timeout, network
error or malformed reply — all of which surface as the caught
exception), the outcome of the direct fallback transaction, and the
nonce/clock/signature sources. -/
structure Env where
  signerConfigured : Bool
  balanceOf : Address → Nat
  facilitatorResponse : Option String
  directResult : Option String
  freshNonce : Nat
  now : Nat
  sigV : Nat
  sigR : Nat
  sigS : Nat

/-- `signTransferAuthorization`: throws when no signer is configured,
otherwise returns the signed typed payload. -/
def signTransferAuthorization (env : Env) (fromAddr toAddr : Address)
    (value validAfter validBefore nonce : Nat) :
    Except X402Error AuthorizationPayload :=
  if ¬ env.signerConfigured then .error .SignerNotConfigured
  else
    .ok { fromAddr := fromAddr, toAddr := toAddr, value := value,
          validAfter := validAfter, validBefore := validBefore,
          nonce := nonce, v := env.sigV, r := env.sigR, s := env.sigS }

/-- `executePaymentDirect` (the fallback): requires the signer, then
submits `executeInstantPayment` directly; the pair's second component is
the event trace of the call. -/
def executePaymentDirect (env : Env) (_auth : AuthorizationPayload) :
    Except X402Error String × List X402Event :=
  (if ¬ env.signerConfigured then .error .SignerNotConfigured
   else
     match env.directResult with
     | some txHash => .ok txHash
     | none => .error .DirectExecutionFailed,
   [.directExecutionAttempted])

/-- `sendPaymentToFacilitator`: POST the base64-encoded authorization to
the facilitator; on success return its transaction reference, on any
failure fall back to `executePaymentDirect`. -/
def sendPaymentToFacilitator (env : Env) (auth : AuthorizationPayload) :
    Except X402Error String × List X402Event :=
  match env.facilitatorResponse with
  | some txHash => (.ok txHash, [.facilitatorRequestSent])
  | none =>
    let fallback := executePaymentDirect env auth
    (fallback.1, .facilitatorRequestSent :: fallback.2)

/-- `executePayment`: balance pre-check, build and sign the EIP-3009
authorization (validAfter 0, validBefore now + 1h, fresh nonce), then
submit to the facilitator with the direct fallback.  The value returned
to the caller is the first component (just the transaction hash, as in
the source, whose return type is a bare string); the second component is
the event trace of the run. -/
def executePayment (env : Env) (params : PaymentParams) :
    Except X402Error String × List X402Event :=
  if env.balanceOf params.sender < params.amount then
    (.error .InsufficientBalance, [])
  else
    match signTransferAuthorization env params.sender params.recipient
        (params.amount * 1000000) 0 (env.now + 3600) env.freshNonce with
    | .error e => (.error e, [])
    | .ok auth => sendPaymentToFacilitator env auth

end X402Service

/-! ## Concrete fixtures

A concrete token ledger, deployed contract states and scenario runs,
used to evaluate the embedded operations on explicit inputs. -/

namespace AfriFlow

/-- A ledger holding 100 USDC-units of "USDC" for "alice". -/
def testLedger : Ledger :=
  fun t a => if t = "USDC" ∧ a = "alice" then 100000000 else 0

end AfriFlow

namespace EscrowVault

open AfriFlow

/-- Extract the state of a successful vault call, with a fallback for
the error case. -/
def stateOr (r : Except EscrowError State) (fallback : State) : State :=
  match r with
  | .ok st => st
  | .error _ => fallback

/-- Extract the state of a successful `createEscrow`. -/
def createStateOr (r : Except EscrowError (State × Nat)) (fallback : State) :
    State :=
  match r with
  | .ok (st, _) => st
  | .error _ => fallback

/-- Vault deployed by "admin" with treasury "treasury" and 15 bps fee. -/
def vault0 : State := deploy "admin" "treasury" 15 testLedger

/-- "alice" escrows 2 USDC for "bob" in two manual milestones of 1 USDC. -/
def escrowCreation : Except EscrowError (State × Nat) :=
  createEscrow vault0 "alice" "bob" "USDC" 2000000 ["m0", "m1"]
    [1000000, 1000000] [0, 0] "" 1

/-- State after the escrow creation: escrow 1 ACTIVE, milestones PENDING. -/
def vault1 : State := createStateOr escrowCreation vault0

/-- State after "bob" disputes milestone 0: escrow 1 DISPUTED. -/
def vault2 : State := stateOr (disputeMilestone vault1 "bob" 1 0 2) vault0

/-- State after the arbiter resolves milestone 0 in the sender's favor:
milestone 0 REFUNDED, escrow back to ACTIVE. -/
def vault3 : State := stateOr (resolveDispute vault2 "admin" 1 0 false 3) vault0

/-- State after "alice" releases milestone 1: every milestone RELEASED
or REFUNDED. -/
def vault4 : State := stateOr (releaseMilestone vault3 "alice" 1 1 4) vault0

/-- State after "alice" releases milestone 0 of the fresh escrow:
`releasedAmount = 1000000 > 0`. -/
def vault1r : State := stateOr (releaseMilestone vault1 "alice" 1 0 2) vault0

/-- State after "bob" then disputes milestone 1: escrow 1 DISPUTED with
`releasedAmount > 0`. -/
def vault1rd : State := stateOr (disputeMilestone vault1r "bob" 1 1 3) vault0

end EscrowVault

namespace AfriFlowPayment

open AfriFlow

/-- Fallback state for the extractors below (never reached on the
concrete runs). -/
def blankPayState : State :=
  { x402Facilitator := zeroAddress, feeBps := 0, treasury := zeroAddress,
    supportedTokens := fun _ => false, userNonce := fun _ => 0,
    payments := fun _ => defaultPayment, userPayments := fun _ => [],
    corridors := fun _ _ => false, corridorVolume := fun _ => 0,
    roles := fun _ _ => false, paused := false, balances := fun _ _ => 0 }

/-- Extract the state of a successful deployment. -/
def deployOr (r : Except PayError State) (fallback : State) : State :=
  match r with
  | .ok st => st
  | .error _ => fallback

/-- Payment contract deployed by "admin", 10 bps fee, "USDC" supported. -/
def pay0 : State :=
  deployOr (deploy "admin" "0xfac" "treasury" 10 ["USDC"] testLedger)
    blankPayState

/-- An instant payment of 1 USDC from "alice" to "bob" over NG→KE. -/
def instantRun : Except PayError (State × PaymentId) :=
  executeInstantPayment pay0 "alice" "bob" "USDC" 1000000 "NG" "KE" "" 5

/-- Post-state of `instantRun`. -/
def instantSt : State :=
  match instantRun with
  | .ok (st, _) => st
  | .error _ => blankPayState

/-- Payment id of `instantRun`. -/
def instantPid : PaymentId :=
  match instantRun with
  | .ok (_, pid) => pid
  | .error _ => ⟨zeroAddress, 0, 0⟩

/-- The operator disables the single corridor NG→KE. -/
def setCorrRun : Except PayError State := setCorridor pay0 "admin" "NG" "KE" false

/-- Post-state of `setCorrRun`. -/
def setCorrSt : State :=
  match setCorrRun with
  | .ok st => st
  | .error _ => blankPayState

end AfriFlowPayment

namespace X402Service

open AfriFlow

/-- A request for 100 USDC from "alice" to "bob". -/
def paramsX : PaymentParams :=
  ⟨"alice", "bob", 100, "US", "NG", ""⟩

/-- Signer configured, facilitator reachable and answering with hash
"0xabc". -/
def envPrimary : Env :=
  { signerConfigured := true, balanceOf := fun _ => 1000,
    facilitatorResponse := some "0xabc", directResult := none,
    freshNonce := 7, now := 100, sigV := 27, sigR := 1, sigS := 2 }

/-- Signer configured, facilitator failing (500 / timeout / network
error), direct fallback succeeding with hash "0xabc". -/
def envFallback : Env :=
  { signerConfigured := true, balanceOf := fun _ => 1000,
    facilitatorResponse := none, directResult := some "0xabc",
    freshNonce := 7, now := 100, sigV := 27, sigR := 1, sigS := 2 }

/-- No signing key configured. -/
def envNoSigner : Env :=
  { signerConfigured := false, balanceOf := fun _ => 1000,
    facilitatorResponse := some "0xabc", directResult := some "0xdef",
    freshNonce := 7, now := 100, sigV := 27, sigR := 1, sigS := 2 }

end X402Service

/-! ## Theorems -/

namespace X402Service

open AfriFlow

/-- **C9.** A payment request executed with no signing key configured
fails with the signing error; the event trace of such a run is empty, so
the facilitator is never contacted and the direct fallback is never
attempted; and the direct fallback is reachable only when a signer is
configured (i.e. only after signing can succeed). -/
theorem signing_failure_is_fatal_and_never_falls_back
    (env : Env) (p : PaymentParams) :
    (env.signerConfigured = false →
      (executePayment env p).2 = [] ∧
      (¬ env.balanceOf p.sender < p.amount →
        (executePayment env p).1 = .error .SignerNotConfigured)) ∧
    (X402Event.directExecutionAttempted ∈ (executePayment env p).2 →
      env.signerConfigured = true) := by
  constructor
  · intro hs
    by_cases hb : env.balanceOf p.sender < p.amount
    · simp [executePayment, hb]
    · simp [executePayment, hb, signTransferAuthorization, hs]
  · intro hmem
    by_cases hs : env.signerConfigured
    · exact hs
    · exfalso
      rw [Bool.not_eq_true] at hs
      by_cases hb : env.balanceOf p.sender < p.amount
      · simp [executePayment, hb] at hmem
      · simp [executePayment, hb, signTransferAuthorization, hs] at hmem

/-- Witness for C9 at a concrete no-signer environment. -/
theorem signing_failure_is_fatal_and_never_falls_back_witness :
    (executePayment envNoSigner paramsX).2 = [] ∧
    (executePayment envNoSigner paramsX).1 = .error .SignerNotConfigured := by
  have h :=
    (signing_failure_is_fatal_and_never_falls_back envNoSigner paramsX).1 rfl
  exact ⟨h.1, h.2 (by decide)⟩

/-- **C8, counterexample.** A run whose facilitator call fails and which
settles through the direct fallback returns to the caller exactly the
same value as a primary-path success: the returned value is a bare
transaction hash with no `usedFallback` flag, so the two runs are
indistinguishable to the caller (the fallback is visible only in the
log/event trace). -/
theorem fallback_result_carries_no_flag :
    (executePayment envFallback paramsX).1 = .ok "0xabc" ∧
    X402Event.directExecutionAttempted ∈ (executePayment envFallback paramsX).2 ∧
    (executePayment envPrimary paramsX).1 = .ok "0xabc" ∧
    X402Event.directExecutionAttempted ∉ (executePayment envPrimary paramsX).2 ∧
    (executePayment envFallback paramsX).1 = (executePayment envPrimary paramsX).1 := by
  exact ⟨rfl, by decide, rfl, by decide, rfl⟩

/-- **C8, amended.** When the facilitator call fails (non-2xx, timeout,
network error) and the direct transaction succeeds, `executePayment`
still completes and returns the fallback's settlement reference; the
fallback is recorded in the run's trace (the source logs it), but the
value returned to the caller carries no `usedFallback` flag. -/
theorem facilitator_failure_falls_back_to_direct
    (env : Env) (p : PaymentParams) (txHash : String)
    (hbal : ¬ env.balanceOf p.sender < p.amount)
    (hsig : env.signerConfigured = true)
    (hfac : env.facilitatorResponse = none)
    (hdir : env.directResult = some txHash) :
    (executePayment env p).1 = .ok txHash ∧
    X402Event.facilitatorRequestSent ∈ (executePayment env p).2 ∧
    X402Event.directExecutionAttempted ∈ (executePayment env p).2 := by
  simp [executePayment, hbal, signTransferAuthorization, hsig,
        sendPaymentToFacilitator, hfac, executePaymentDirect, hdir]

/-- Witness for the amended C8 at a concrete failing-facilitator
environment. -/
theorem facilitator_failure_falls_back_to_direct_witness :
    (executePayment envFallback paramsX).1 = .ok "0xabc" ∧
    X402Event.facilitatorRequestSent ∈ (executePayment envFallback paramsX).2 ∧
    X402Event.directExecutionAttempted ∈ (executePayment envFallback paramsX).2 :=
  facilitator_failure_falls_back_to_direct envFallback paramsX "0xabc"
    (by decide) rfl rfl rfl

end X402Service

namespace AfriFlowPayment

open AfriFlow

/-- The fixed country lists are duplicate-free, so the source's
index-inequality guard `i != j` coincides with code inequality and the
off-diagonal loop writes exactly the pairs of distinct codes. -/
lemma africanCountries_nodup : africanCountries.Nodup := by decide

lemma internationalCountries_nodup : internationalCountries.Nodup := by decide

lemma mem_offDiagPairs (l : List String) (a b : String) :
    (a, b) ∈ offDiagPairs l ↔ a ∈ l ∧ b ∈ l ∧ a ≠ b := by
  simp only [offDiagPairs, List.mem_flatMap, List.mem_filterMap,
    Option.ite_none_right_eq_some, Option.some.injEq, Prod.mk.injEq]
  constructor
  · rintro ⟨x, hx, y, hy, hxy, hax, hby⟩
    subst hax; subst hby
    exact ⟨hx, hy, hxy⟩
  · rintro ⟨ha, hb, hne⟩
    exact ⟨a, ha, b, hb, hne, rfl, rfl⟩

lemma mem_crossPairs (ext reg : List String) (a b : String) :
    (a, b) ∈ crossPairs ext reg ↔
      (a ∈ ext ∧ b ∈ reg) ∨ (b ∈ ext ∧ a ∈ reg) := by
  simp only [crossPairs, List.mem_flatMap, List.mem_cons,
    List.not_mem_nil, or_false, Prod.mk.injEq]
  constructor
  · rintro ⟨x, hx, y, hy, ⟨hax, hby⟩ | ⟨hay, hbx⟩⟩
    · subst hax; subst hby; exact .inl ⟨hx, hy⟩
    · subst hay; subst hbx; exact .inr ⟨hx, hy⟩
  · rintro (⟨ha, hb⟩ | ⟨hb, ha⟩)
    · exact ⟨a, ha, b, hb, .inl ⟨rfl, rfl⟩⟩
    · exact ⟨b, hb, a, ha, .inr ⟨rfl, rfl⟩⟩

/-- Folding the pair-write loop over a corridor mapping enables exactly
the listed pairs on top of what was already enabled. -/
lemma foldl_setPair (ps : List (String × String))
    (m : String → String → Bool) (a b : String) :
    ps.foldl setPair m a b = (m a b || decide ((a, b) ∈ ps)) := by
  induction ps generalizing m with
  | nil => simp
  | cons p ps ih =>
    rw [List.foldl_cons, ih]
    by_cases hab : a = p.1 ∧ b = p.2
    · simp [setPair, hab, List.mem_cons, Prod.ext_iff]
    · simp [setPair, hab, List.mem_cons, Prod.ext_iff]

/-- **C7.** After the constructor's bulk corridor initialization,
`isCorridorSupported a b` holds exactly for the ordered pairs of
distinct regional (African) codes and for the pairs between an
international code and a regional code in both directions — and for no
other pair of codes; and a subsequent single `setCorridor` edit
rewrites only its own ordered pair, never the reverse direction. -/
theorem corridor_init_characterization_and_setCorridor_locality :
    (∀ st : State, st.corridors = initializeCorridors (fun _ _ => false) →
      ∀ a b : String,
        (isCorridorSupported st a b = true ↔
          ((a ∈ africanCountries ∧ b ∈ africanCountries ∧ a ≠ b) ∨
           (a ∈ internationalCountries ∧ b ∈ africanCountries) ∨
           (a ∈ africanCountries ∧ b ∈ internationalCountries)))) ∧
    (∀ (st st' : State) (caller : Address) (x y : String) (v : Bool),
      setCorridor st caller x y v = .ok st' →
        st'.corridors x y = v ∧
        (∀ a b : String, ¬(a = x ∧ b = y) → st'.corridors a b = st.corridors a b) ∧
        (x ≠ y → st'.corridors y x = st.corridors y x)) := by
  constructor
  · intro st hc a b
    rw [isCorridorSupported, hc, initializeCorridors, foldl_setPair,
      foldl_setPair]
    simp only [Bool.false_or, Bool.or_eq_true, decide_eq_true_eq,
      mem_offDiagPairs, mem_crossPairs]
    tauto
  · intro st st' caller x y v h
    rw [setCorridor] at h
    split at h
    · exact absurd h (by simp)
    · injection h with h
      subst h
      refine ⟨by simp, fun a b hab => by simp [hab], fun hxy => ?_⟩
      have : ¬(y = x ∧ x = y) := fun ⟨h1, _⟩ => hxy h1.symm
      simp [this]

/-- Witness for C7: on the deployed contract, NG→KE is enabled by the
bulk initialization, and disabling it leaves the reverse corridor KE→NG
untouched. -/
theorem corridor_init_characterization_witness :
    isCorridorSupported pay0 "NG" "KE" = true ∧
    setCorrSt.corridors "KE" "NG" = pay0.corridors "KE" "NG" := by
  constructor
  · exact (corridor_init_characterization_and_setCorridor_locality.1
      pay0 rfl "NG" "KE").mpr (.inl (by decide))
  · exact (corridor_init_characterization_and_setCorridor_locality.2
      pay0 setCorrSt "admin" "NG" "KE" false rfl).2.2 (by decide)

end AfriFlowPayment

namespace EscrowVault

open AfriFlow

/-- **C1 (failing run).** A full concrete run refuting the completion
invariant: "alice" escrows 2 USDC in two milestones, "bob" disputes
milestone 0, the arbiter refunds it to the sender, and "alice" then
releases milestone 1.  Every milestone ends RELEASED or REFUNDED, yet
the escrow's status is ACTIVE, not COMPLETED: the completion check of
`releaseMilestone` compares `releasedAmount` with `totalAmount`, and a
refunded milestone's amount can never be released, so the comparison
can never succeed once any milestone has been refunded. -/
theorem completion_invariant_fails_after_refund_then_release :
    escrowCreation = .ok (vault1, 1) ∧
    disputeMilestone vault1 "bob" 1 0 2 = .ok vault2 ∧
    resolveDispute vault2 "admin" 1 0 false 3 = .ok vault3 ∧
    releaseMilestone vault3 "alice" 1 1 4 = .ok vault4 ∧
    (vault4.escrows 1).milestoneCount = 2 ∧
    (vault4.milestones 1 0).status = .REFUNDED ∧
    (vault4.milestones 1 1).status = .RELEASED ∧
    (vault4.escrows 1).status = .ACTIVE ∧
    (vault4.escrows 1).status ≠ .COMPLETED :=
  ⟨rfl, rfl, rfl, rfl, rfl, rfl, rfl, rfl, by decide⟩

/-- **C10.** While an escrow is DISPUTED, `releaseMilestone` fails with
`EscrowNotActive` on every milestone index and for every caller, and so
does `disputeMilestone`; moreover a release can succeed only on an
ACTIVE escrow, and a successful `resolveDispute` always leaves the
escrow ACTIVE or COMPLETED (so releases become possible again exactly
when resolution returns the escrow to ACTIVE). -/
theorem disputed_escrow_blocks_release_and_dispute
    (st : State) (caller caller2 : Address) (id idx idx2 now now2 : Nat)
    (hp : st.paused = false)
    (hfound : (st.escrows id).escrowId ≠ 0)
    (hdisp : (st.escrows id).status = .DISPUTED) :
    releaseMilestone st caller id idx now = .error .EscrowNotActive ∧
    disputeMilestone st caller2 id idx2 now2 = .error .EscrowNotActive ∧
    (∀ (st2 st2' : State) (c : Address) (i n : Nat),
      (st2.escrows id).status ≠ .ACTIVE →
      releaseMilestone st2 c id i n ≠ .ok st2') ∧
    (∀ (st' : State) (c : Address) (i n : Nat) (b : Bool),
      resolveDispute st c id i b n = .ok st' →
      (st'.escrows id).status = .ACTIVE ∨ (st'.escrows id).status = .COMPLETED) := by
  refine ⟨?_, ?_, ?_, ?_⟩
  · simp [releaseMilestone, hp, hfound, hdisp]
  · simp [disputeMilestone, hfound, hdisp]
  · intro st2 st2' c i n hna h
    by_cases hp2 : st2.paused
    · simp [releaseMilestone, hp2] at h
    · by_cases hf2 : (st2.escrows id).escrowId = 0
      · simp [releaseMilestone, hp2, hf2] at h
      · simp [releaseMilestone, hp2, hf2, hna] at h
  · intro st' c i n b h
    rw [resolveDispute] at h
    simp only [] at h
    repeat' split at h
    all_goals first
      | exact Except.noConfusion h
      | (injection h with h; subst h; right; simp [updEscrow]; done)
      | (injection h with h; subst h; left; simp [updEscrow]; done)

/-- Witness for C10 on the concrete disputed escrow `vault2`. -/
theorem disputed_escrow_blocks_release_and_dispute_witness :
    releaseMilestone vault2 "alice" 1 1 10 = .error .EscrowNotActive ∧
    disputeMilestone vault2 "bob" 1 1 10 = .error .EscrowNotActive := by
  have h := disputed_escrow_blocks_release_and_dispute vault2 "alice" "bob"
    1 1 1 10 10 rfl (by decide) rfl
  exact ⟨h.1, h.2.1⟩

end EscrowVault

namespace EscrowVault

open AfriFlow

/-- **C4 (amended).** `cancelEscrow` succeeds exactly for the escrow's
sender, on an ACTIVE escrow with `releasedAmount = 0` (given the vault
holds the funds), refunding the full `totalAmount` to the sender with no
fee and setting the status CANCELLED; on an ACTIVE escrow with
`releasedAmount > 0` it fails with `NotAuthorized`; on an escrow that is
no longer ACTIVE (e.g. DISPUTED after a partial release) it fails with
`EscrowNotActive` instead. -/
theorem cancelEscrow_only_before_any_release
    (st : State) (caller : Address) (id now : Nat)
    (hfound : (st.escrows id).escrowId ≠ 0)
    (hsender : caller = (st.escrows id).sender) :
    ((st.escrows id).status = .ACTIVE → (st.escrows id).releasedAmount = 0 →
      (st.escrows id).totalAmount ≤ st.balances (st.escrows id).token self →
      ∃ st', cancelEscrow st caller id now = .ok st' ∧
        (st'.escrows id).status = .CANCELLED ∧
        ((st.escrows id).sender ≠ self →
          st'.balances (st.escrows id).token (st.escrows id).sender =
            st.balances (st.escrows id).token (st.escrows id).sender +
              (st.escrows id).totalAmount) ∧
        (st.treasury ≠ self → st.treasury ≠ (st.escrows id).sender →
          st'.balances (st.escrows id).token st.treasury =
            st.balances (st.escrows id).token st.treasury)) ∧
    ((st.escrows id).status = .ACTIVE → (st.escrows id).releasedAmount > 0 →
      cancelEscrow st caller id now = .error .NotAuthorized) ∧
    ((st.escrows id).status ≠ .ACTIVE →
      cancelEscrow st caller id now = .error .EscrowNotActive) ∧
    (∀ (st0 st0' : State) (c : Address),
      cancelEscrow st0 c id now = .ok st0' →
      c = (st0.escrows id).sender ∧ (st0.escrows id).status = .ACTIVE ∧
        (st0.escrows id).releasedAmount = 0) := by
  refine ⟨?_, ?_, ?_, ?_⟩
  · intro hact hrel hbal
    rw [cancelEscrow]
    rw [if_neg hfound, if_neg (by simp [hsender]), if_neg (by simp [hact]),
      if_neg (by omega)]
    rw [erc20Transfer, if_neg (Nat.not_lt.mpr hbal)]
    refine ⟨_, rfl, by simp [updEscrow], fun hs => ?_, fun ht1 ht2 => ?_⟩
    · simp [setBal, hs]
    · simp [setBal, ht1, ht2]
  · intro hact hrel
    rw [cancelEscrow]
    rw [if_neg hfound, if_neg (by simp [hsender]), if_neg (by simp [hact]),
      if_pos hrel]
  · intro hna
    rw [cancelEscrow]
    rw [if_neg hfound, if_neg (by simp [hsender]), if_pos hna]
  · intro st0 st0' c h
    rw [cancelEscrow] at h
    repeat' split at h
    all_goals first
      | exact Except.noConfusion h
      | exact ⟨by tauto, by tauto, by omega⟩

/-- Witness for the amended C4: on the concrete partially-released
escrow, cancellation fails with `NotAuthorized` while it is still
ACTIVE, and with `EscrowNotActive` once the remaining milestone is
disputed. -/
theorem cancelEscrow_only_before_any_release_witness :
    cancelEscrow vault1r "alice" 1 9 = .error .NotAuthorized ∧
    cancelEscrow vault1rd "alice" 1 9 = .error .EscrowNotActive := by
  refine ⟨?_, ?_⟩
  · exact (cancelEscrow_only_before_any_release vault1r "alice" 1 9
      (by decide) rfl).2.1 rfl (by decide)
  · exact (cancelEscrow_only_before_any_release vault1rd "alice" 1 9
      (by decide) rfl).2.2.1 (by decide)

/-- **C4, counterexample.** An escrow on which milestone 0 has been
released (`releasedAmount = 1000000 > 0`) and milestone 1 was then
disputed: the sender's `cancelEscrow` fails, but with `EscrowNotActive`
(the status check precedes the released-amount check), not with
`NotAuthorized` as the claim states for every escrow with a released
milestone. -/
theorem cancel_after_release_fails_with_other_error :
    (vault1rd.escrows 1).releasedAmount = 1000000 ∧
    (vault1rd.escrows 1).sender = "alice" ∧
    cancelEscrow vault1rd "alice" 1 4 = .error .EscrowNotActive ∧
    EscrowError.EscrowNotActive ≠ EscrowError.NotAuthorized :=
  ⟨rfl, rfl, rfl, by decide⟩

/-- **C3 (amended).** A `createEscrow` call whose milestone amounts do
not sum to `totalAmount` never succeeds (the revert happens before any
record is written or any funds are pulled), and when the earlier
recipient/minimum/shape validations pass it fails precisely with
`InvalidAmount`. -/
theorem createEscrow_sum_mismatch_rejected
    (st : State) (msgSender recipient token : Address) (totalAmount : Nat)
    (ds : List String) (amts : List Nat) (ts : List Nat) (md : String)
    (now : Nat)
    (hsum : amts.foldl (· + ·) 0 ≠ totalAmount) :
    (∀ res, createEscrow st msgSender recipient token totalAmount ds amts ts
      md now ≠ .ok res) ∧
    (st.paused = false → recipient ≠ zeroAddress →
      MIN_ESCROW_AMOUNT ≤ totalAmount →
      ds.length ≠ 0 → ds.length ≤ MAX_MILESTONES →
      ds.length = amts.length → ds.length = ts.length →
      createEscrow st msgSender recipient token totalAmount ds amts ts md now =
        .error .InvalidAmount) := by
  constructor
  · intro res h
    rw [createEscrow] at h
    simp only [] at h
    repeat' split at h
    all_goals first
      | exact Except.noConfusion h
      | tauto
  · intro hp hrec hmin h0 hmax hla hlt
    rw [createEscrow]
    simp only []
    rw [if_neg (by simp [hp]), if_neg hrec,
      if_neg (by simp only [MIN_ESCROW_AMOUNT] at hmin ⊢; omega),
      if_neg (by simp only [MAX_MILESTONES] at hmax ⊢; omega),
      if_pos hsum]

/-- Witness for the amended C3 at a concrete mismatched creation. -/
theorem createEscrow_sum_mismatch_rejected_witness :
    createEscrow vault0 "alice" "bob" "USDC" 2000000 ["m0", "m1"]
      [1000000, 500000] [0, 0] "" 1 = .error .InvalidAmount :=
  (createEscrow_sum_mismatch_rejected vault0 "alice" "bob" "USDC" 2000000
    ["m0", "m1"] [1000000, 500000] [0, 0] "" 1 (by decide)).2 rfl (by decide)
    (by decide) (by decide) (by decide) rfl rfl

/-- **C3, counterexample.** On a concrete mismatched creation the error
actually raised is `InvalidAmount`, not a milestone-set error: the
contract's only milestone-set error `InvalidMilestones` (the closest
counterpart of the claim's `InvalidMilestoneSet`, which appears nowhere
in the source) is reserved for shape violations of the milestone
arrays. -/
theorem sum_mismatch_error_is_InvalidAmount :
    createEscrow vault0 "alice" "bob" "USDC" 2000000 ["m0", "m1"]
      [1000000, 500000] [0, 0] "" 1 = .error .InvalidAmount ∧
    EscrowError.InvalidAmount ≠ EscrowError.InvalidMilestones :=
  ⟨rfl, by decide⟩

end EscrowVault

namespace AfriFlow

/-- Balance bookkeeping of a successful ERC-20 transfer between two
distinct accounts. -/
lemma erc20Transfer_spec (bal : Ledger) (token src dst : Address) (amt : Nat)
    (h : amt ≤ bal token src) (hne : src ≠ dst) :
    ∃ bal2, erc20Transfer bal token src dst amt = some bal2 ∧
      bal2 token src = bal token src - amt ∧
      bal2 token dst = bal token dst + amt ∧
      (∀ a, a ≠ src → a ≠ dst → bal2 token a = bal token a) := by
  refine ⟨_, by rw [erc20Transfer, if_neg (Nat.not_lt.mpr h)], ?_, ?_, ?_⟩
  · simp [setBal, hne, Ne.symm hne]
  · simp [setBal, hne, Ne.symm hne]
  · intro a ha1 ha2
    simp [setBal, ha1, ha2]

/-- `amount * feeBps / 10000 ≤ amount` whenever `feeBps ≤ 10000` (in the
contracts `feeBps ≤ 100` is enforced at configuration time). -/
lemma fee_le_amount (amount feeBps : Nat) (h : feeBps ≤ 10000) :
    amount * feeBps / 10000 ≤ amount := by
  calc amount * feeBps / 10000 ≤ amount * 10000 / 10000 :=
        Nat.div_le_div_right (Nat.mul_le_mul_left _ h)
    _ = amount := Nat.mul_div_cancel amount (by norm_num)

end AfriFlow

namespace EscrowVault

open AfriFlow

/-- **C6.** On a disputed milestone (arbiter calling, vault funded,
configured fee at most 100 bps): resolving in the recipient's favor
marks the milestone RELEASED and transfers exactly
`amount - floor(amount * feeBps / 10000)` to the recipient and the fee
to the treasury; resolving in the sender's favor marks the milestone
REFUNDED and transfers exactly the full milestone amount back to the
sender with zero fee (treasury untouched). -/
theorem resolveDispute_fee_and_refund_semantics
    (st : State) (arb : Address) (id idx now : Nat)
    (harb : st.roles ARBITER_ROLE arb = true)
    (hfound : (st.escrows id).escrowId ≠ 0)
    (hdisp : (st.milestones id idx).status = .DISPUTED)
    (hfee : st.feeBps ≤ 100)
    (hbal : (st.milestones id idx).amount ≤ st.balances (st.escrows id).token self)
    (hrec : (st.escrows id).recipient ≠ self)
    (htre : st.treasury ≠ self)
    (hrt : (st.escrows id).recipient ≠ st.treasury)
    (hsen : (st.escrows id).sender ≠ self) :
    (∃ st', resolveDispute st arb id idx true now = .ok st' ∧
      (st'.milestones id idx).status = .RELEASED ∧
      st'.balances (st.escrows id).token (st.escrows id).recipient =
        st.balances (st.escrows id).token (st.escrows id).recipient +
          ((st.milestones id idx).amount -
            (st.milestones id idx).amount * st.feeBps / 10000) ∧
      st'.balances (st.escrows id).token st.treasury =
        st.balances (st.escrows id).token st.treasury +
          (st.milestones id idx).amount * st.feeBps / 10000) ∧
    (∃ st', resolveDispute st arb id idx false now = .ok st' ∧
      (st'.milestones id idx).status = .REFUNDED ∧
      st'.balances (st.escrows id).token (st.escrows id).sender =
        st.balances (st.escrows id).token (st.escrows id).sender +
          (st.milestones id idx).amount ∧
      ((st.escrows id).sender ≠ st.treasury →
        st'.balances (st.escrows id).token st.treasury =
          st.balances (st.escrows id).token st.treasury)) := by
  have hfle : (st.milestones id idx).amount * st.feeBps / 10000 ≤
      (st.milestones id idx).amount :=
    fee_le_amount _ _ (le_trans hfee (by norm_num))
  constructor
  · have hnetle : (st.milestones id idx).amount -
        (st.milestones id idx).amount * st.feeBps / 10000 ≤
        st.balances (st.escrows id).token self :=
      le_trans (Nat.sub_le _ _) hbal
    obtain ⟨bal1, e1, h1src, h1dst, h1o⟩ :=
      erc20Transfer_spec st.balances (st.escrows id).token self
        (st.escrows id).recipient _ hnetle (Ne.symm hrec)
    by_cases hf : (st.milestones id idx).amount * st.feeBps / 10000 > 0
    · have hfeele : (st.milestones id idx).amount * st.feeBps / 10000 ≤
          bal1 (st.escrows id).token self := by
        rw [h1src]; omega
      obtain ⟨bal2, e2, h2src, h2dst, h2o⟩ :=
        erc20Transfer_spec bal1 (st.escrows id).token self st.treasury _
          hfeele (Ne.symm htre)
      rw [resolveDispute]
      simp only []
      rw [if_neg (by simp [harb]), if_neg hfound, if_neg (by simp [hdisp]),
        if_pos trivial]
      simp only [e1, if_pos hf, e2]
      refine ⟨_, rfl, ?_, ?_, ?_⟩
      · simp [updMilestone]
      · simp only [h2o _ hrec hrt, h1dst]
      · simp only [h2dst, h1o _ htre (Ne.symm hrt)]
    · rw [resolveDispute]
      simp only []
      rw [if_neg (by simp [harb]), if_neg hfound, if_neg (by simp [hdisp]),
        if_pos trivial]
      simp only [e1, if_neg hf]
      refine ⟨_, rfl, ?_, ?_, ?_⟩
      · simp [updMilestone]
      · exact h1dst
      · simp only [h1o _ htre (Ne.symm hrt)]; omega
  · obtain ⟨bal1, e1, h1src, h1dst, h1o⟩ :=
      erc20Transfer_spec st.balances (st.escrows id).token self
        (st.escrows id).sender _ hbal (Ne.symm hsen)
    rw [resolveDispute]
    simp only []
    rw [if_neg (by simp [harb]), if_neg hfound, if_neg (by simp [hdisp]),
      if_neg (by simp)]
    simp only [e1]
    refine ⟨_, rfl, ?_, ?_, ?_⟩
    · simp [updMilestone]
    · exact h1dst
    · intro hts
      exact h1o _ htre (Ne.symm hts)

/-- Witness for C6 on the concrete disputed escrow `vault2` (milestone 0
of 1 USDC disputed, 15 bps fee): the refund branch returns exactly the
full milestone amount to the sender. -/
theorem resolveDispute_fee_and_refund_semantics_witness :
    vault3.balances "USDC" "alice" = vault2.balances "USDC" "alice" + 1000000 ∧
    (vault3.milestones 1 0).status = .REFUNDED ∧
    vault3.balances "USDC" "treasury" = vault2.balances "USDC" "treasury" := by
  obtain ⟨st', hrun, hms, hbal, htr⟩ :=
    (resolveDispute_fee_and_refund_semantics vault2 "admin" 1 0 3 rfl
      (by decide) rfl (by decide) (by decide) (by decide) (by decide)
      (by decide) (by decide)).2
  have hv : resolveDispute vault2 "admin" 1 0 false 3 = .ok vault3 := rfl
  rw [hv] at hrun
  have hst : st' = vault3 := (Except.ok.inj hrun).symm
  subst hst
  exact ⟨hbal, hms, htr (by decide)⟩
end EscrowVault

namespace AfriFlow

lemma erc20Transfer_eq_some (bal : Ledger) (token src dst : Address)
    (amt : Nat) (bal2 : Ledger) (hne : src ≠ dst)
    (h : erc20Transfer bal token src dst amt = some bal2) :
    amt ≤ bal token src ∧
    bal2 token src = bal token src - amt ∧
    bal2 token dst = bal token dst + amt ∧
    (∀ a, a ≠ src → a ≠ dst → bal2 token a = bal token a) := by
  rw [erc20Transfer] at h
  split at h
  · exact Option.noConfusion h
  · injection h with h
    subst h
    refine ⟨by omega, ?_, ?_, ?_⟩
    · simp [setBal, hne, Ne.symm hne]
    · simp [setBal, hne, Ne.symm hne]
    · intro a ha1 ha2
      simp [setBal, ha1, ha2]

end AfriFlow

namespace AfriFlowPayment

open AfriFlow

theorem instant_payment_fee_conservation
    (st st' : State) (pid : PaymentId) (msgSender recipient token : Address)
    (amount : Nat) (fromC toC : String) (md : String) (now : Nat)
    (hfee : st.feeBps ≤ MAX_FEE_BPS)
    (d1 : msgSender ≠ recipient) (d2 : msgSender ≠ st.treasury)
    (d3 : msgSender ≠ self) (d4 : recipient ≠ st.treasury)
    (d5 : recipient ≠ self) (d6 : st.treasury ≠ self)
    (h : executeInstantPayment st msgSender recipient token amount fromC toC
      md now = .ok (st', pid)) :
    calculateFee st amount = amount * st.feeBps / 10000 ∧
    (st'.payments pid).fee = calculateFee st amount ∧
    (st'.payments pid).amount = amount ∧
    (st'.payments pid).status = .COMPLETED ∧
    (st'.payments pid).fee + (amount - calculateFee st amount) = amount ∧
    amount ≤ st.balances token msgSender ∧
    st'.balances token msgSender = st.balances token msgSender - amount ∧
    st'.balances token recipient =
      st.balances token recipient + (amount - calculateFee st amount) ∧
    st'.balances token st.treasury =
      st.balances token st.treasury + calculateFee st amount ∧
    st'.balances token self = st.balances token self := by
  have hfle : amount * st.feeBps / 10000 ≤ amount :=
    fee_le_amount _ _ (le_trans hfee (by decide))
  rw [executeInstantPayment] at h
  simp only [generatePaymentId] at h
  repeat' split at h
  all_goals try exact Except.noConfusion h
  rename_i x1 bal1 heq1 x2 bal2 heq2 x3 bal3 heq3
  clear x1 x2 x3
  injection h with h
  injection h with hst hpid
  subst hpid
  subst hst
  obtain ⟨hb1, h1s, h1d, h1o⟩ := erc20Transfer_eq_some _ _ _ _ _ _ d3 heq1
  obtain ⟨hb2, h2s, h2d, h2o⟩ :=
    erc20Transfer_eq_some _ _ _ _ _ _ (Ne.symm d5) heq2
  by_cases hf : amount * st.feeBps / BPS_DENOMINATOR > 0
  · rw [if_pos hf] at heq3
    obtain ⟨hb3, h3s, h3d, h3o⟩ :=
      erc20Transfer_eq_some _ _ _ _ _ _ (Ne.symm d6) heq3
    refine ⟨rfl, by simp [calculateFee], by simp, by simp, ?_, hb1,
      ?_, ?_, ?_, ?_⟩
    · simp [calculateFee, BPS_DENOMINATOR]
      omega
    · simp only [h3o _ d3 d2, h2o _ d3 d1, h1s]
    · simp only [calculateFee, BPS_DENOMINATOR, h3o _ d5 d4, h2d,
        h1o _ (Ne.symm d1) d5]
    · simp only [calculateFee, BPS_DENOMINATOR, h3d,
        h2o _ d6 (Ne.symm d4), h1o _ (Ne.symm d2) d6]
    · simp only [h3s, h2s, h1d, BPS_DENOMINATOR]
      omega
  · rw [if_neg hf] at heq3
    injection heq3 with heq3
    subst heq3
    simp only [BPS_DENOMINATOR] at hf
    refine ⟨rfl, by simp [calculateFee], by simp, by simp, ?_, hb1,
      ?_, ?_, ?_, ?_⟩
    · simp [calculateFee, BPS_DENOMINATOR]
      omega
    · simp only [h2o _ d3 d1, h1s]
    · simp only [calculateFee, BPS_DENOMINATOR, h2d,
        h1o _ (Ne.symm d1) d5]
    · simp only [calculateFee, BPS_DENOMINATOR,
        h2o _ d6 (Ne.symm d4), h1o _ (Ne.symm d2) d6]
      omega
    · simp only [h2s, h1d, BPS_DENOMINATOR]
      omega


end AfriFlowPayment

namespace AfriFlowPayment

open AfriFlow

set_option maxRecDepth 100000 in
/-- Witness for C2 on the concrete 1-USDC instant payment (10 bps):
the recorded fee plus the net amount equals the amount pulled, and the
recipient receives exactly the net amount. -/
theorem instant_payment_fee_conservation_witness :
    (instantSt.payments instantPid).fee +
      (1000000 - calculateFee pay0 1000000) = 1000000 ∧
    instantSt.balances "USDC" "bob" =
      pay0.balances "USDC" "bob" + (1000000 - calculateFee pay0 1000000) := by
  have h := instant_payment_fee_conservation pay0 instantSt instantPid
    "alice" "bob" "USDC" 1000000 "NG" "KE" "" 5 (by decide) (by decide)
    (by decide) (by decide) (by decide) (by decide) (by decide) rfl
  exact ⟨h.2.2.2.2.1, h.2.2.2.2.2.2.2.1⟩

/-- The validate-and-total pass never succeeds when some entry of the
batch is invalid (zero recipient, amount below the minimum, or disabled
corridor). -/
lemma validateEntries_rejects (feeBps : Nat)
    (corridors : String → String → Bool) (fromCorridor : String)
    (entries : List (Address × Nat × String)) (r : Address) (amt : Nat)
    (toC : String) (hmem : (r, amt, toC) ∈ entries)
    (hbad : r = zeroAddress ∨ amt < MIN_PAYMENT_AMOUNT ∨
      corridors fromCorridor toC = false) :
    ∀ v, validateEntries feeBps corridors fromCorridor entries ≠ .ok v := by
  induction hmem with
  | head rest =>
    intro v hv
    rw [validateEntries] at hv
    by_cases c1 : r = zeroAddress
    · rw [if_pos c1] at hv; exact Except.noConfusion hv
    · rw [if_neg c1] at hv
      by_cases c2 : amt < MIN_PAYMENT_AMOUNT
      · rw [if_pos c2] at hv; exact Except.noConfusion hv
      · rw [if_neg c2] at hv
        by_cases c3 : ¬ corridors fromCorridor toC
        · rw [if_pos c3] at hv; exact Except.noConfusion hv
        · rcases hbad with hb | hb | hb
          · exact c1 hb
          · exact c2 hb
          · exact c3 (by simp [hb])
  | tail b hmem ih =>
    obtain ⟨br, ba, bc⟩ := b
    intro v hv
    rw [validateEntries] at hv
    by_cases c1 : br = zeroAddress
    · rw [if_pos c1] at hv; exact Except.noConfusion hv
    · rw [if_neg c1] at hv
      by_cases c2 : ba < MIN_PAYMENT_AMOUNT
      · rw [if_pos c2] at hv; exact Except.noConfusion hv
      · rw [if_neg c2] at hv
        by_cases c3 : ¬ corridors fromCorridor bc
        · rw [if_pos c3] at hv; exact Except.noConfusion hv
        · rw [if_neg c3] at hv
          split at hv
          all_goals first
            | exact Except.noConfusion hv
            | (rename_i ta tf hrest; exact ih (ta, tf) hrest)

/-- **C5.** A batch payment containing any invalid entry — zero
recipient address, amount below the minimum, or unsupported corridor —
never succeeds: the whole call reverts during the validate-and-total
pass, before any transfer is executed or any payment record is written,
leaving the sender's balance unchanged. -/
theorem batch_rejected_on_any_invalid_entry
    (st : State) (msgSender token : Address) (recipients : List Address)
    (amounts : List Nat) (fromCorridor : String) (toCorridors : List String)
    (now : Nat) (r : Address) (amt : Nat) (toC : String)
    (hmem : (r, amt, toC) ∈ recipients.zip (amounts.zip toCorridors))
    (hbad : r = zeroAddress ∨ amt < MIN_PAYMENT_AMOUNT ∨
      st.corridors fromCorridor toC = false) :
    ∀ res, executeBatchPayment st msgSender recipients token amounts
      fromCorridor toCorridors now ≠ .ok res := by
  intro res h
  rw [executeBatchPayment] at h
  simp only [] at h
  repeat' split at h
  all_goals first
    | exact Except.noConfusion h
    | (obtain ⟨p, hp⟩ : ∃ p, validateEntries st.feeBps st.corridors
          fromCorridor (recipients.zip (amounts.zip toCorridors)) = .ok p :=
        ⟨_, by assumption⟩;
       exact validateEntries_rejects st.feeBps st.corridors fromCorridor
        (recipients.zip (amounts.zip toCorridors)) r amt toC hmem hbad p hp)

/-- Witness for C5: a concrete two-entry batch whose second recipient is
the zero address is rejected. -/
theorem batch_rejected_on_any_invalid_entry_witness :
    executeBatchPayment pay0 "alice" ["bob", "0x0"] "USDC"
      [1000000, 1000000] "NG" ["KE", "KE"] 7 ≠ .ok (blankPayState, []) :=
  batch_rejected_on_any_invalid_entry pay0 "alice" "USDC" ["bob", "0x0"]
    [1000000, 1000000] "NG" ["KE", "KE"] 7 "0x0" 1000000 "KE" (by decide)
    (.inl rfl) (blankPayState, [])

end AfriFlowPayment
